import Mathlib

/-!
Verification development for the dreamhome real-estate backend.

The definitions below are shallow embeddings of the Python source:
  * `app/schemas/property.py`       — `PropertySearchParams` and its validators
  * `app/services/property_service.py` — `PropertyService` (search, price per sqm, update)
  * `app/services/alert_service.py` — `AlertService` (matcher, favorites, price tracking)
  * `app/core/cache.py`             — `CacheService` (cache keys, gets/puts/invalidation)
  * `app/api/v1/endpoints/properties.py` — mutation endpoints and cache calls

Python machine-level conventions used throughout:
  * `Optional[T]` becomes `Option T`; an absent value is `none`.
  * Python truthiness tests (`if params.min_price:`) are embedded as explicit
    truthiness functions (`0`, `""`, `[]`, `None` are falsy).
  * Numeric columns declared `Integer` become `Int`; values produced by true
    division (`/`) become `ℚ`.
  * A raised exception becomes the `Except.error` branch of an `Except`.
  * A SQL result set is a `List` of rows whose order models the scan order the
    database chose; `ORDER BY k` is embedded as a stable insertion sort on `k`,
    so quantifying over input row orders covers the orderings the database may
    produce for tied keys.
-/

/-! ## Python truthiness helpers -/

def truthyInt : Option Int → Bool
  | none => false
  | some n => n != 0

def truthyStr : Option String → Bool
  | none => false
  | some s => s != ""

def truthyList : Option (List String) → Bool
  | none => false
  | some l => !l.isEmpty

/-! ## String helpers: Python `in` on strings and SQL `ILIKE '%pat%'`

Strings are compared through their character codes so that every operation
reduces by computation. -/

def strCodes (s : String) : List Nat :=
  s.toList.map Char.toNat

/-- ASCII lower-casing of one character code (`str.lower` on the inputs the
service handles). -/
def lowerCode (n : Nat) : Nat :=
  if 65 ≤ n && n ≤ 90 then n + 32 else n

def codesStartsWith : List Nat → List Nat → Bool
  | [], _ => true
  | _ :: _, [] => false
  | a :: as, b :: bs => a == b && codesStartsWith as bs

def codesContains (pat : List Nat) : List Nat → Bool
  | [] => codesStartsWith pat []
  | c :: rest => codesStartsWith pat (c :: rest) || codesContains pat rest

/-- Python `pat in hay` on strings: substring containment. -/
def strContains (hay pat : String) : Bool :=
  codesContains (strCodes pat) (strCodes hay)

/-- SQL `hay ILIKE '%pat%'`, and Python `pat.lower() in hay.lower()`:
case-insensitive substring containment. -/
def ilikeContains (hay pat : String) : Bool :=
  codesContains ((strCodes pat).map lowerCode) ((strCodes hay).map lowerCode)

/-! ## Data model: `app/models/property.py` (fields the search core reads) -/

inductive PStatus
  | draft
  | active
  | sold
  | rented
  | expired
deriving DecidableEq, Repr

structure Property where
  id : Nat
  owner_id : Nat
  title : String := ""
  city : String
  property_type : String := "apartment"
  listing_type : String := "sale"
  status : PStatus := .draft
  price : Int
  price_per_sqm : ℚ := 0
  total_area : Int
  rooms : Int := 1
  bedrooms : Int := 1
  bathrooms : Int := 1
  created_at : Int := 0
  published_at : Option Int := none
  deleted_at : Option Int := none
  favorite_count : Int := 0
  photos : List String := []
deriving DecidableEq, Repr

/-! ## `PropertySearchParams` (`app/schemas/property.py`, lines 151-255)

The pydantic model: every filter optional, pagination and sorting defaulted.
-/

structure PropertySearchParams where
  search_text : Option String := none
  cities : Option (List String) := none
  city : Option String := none
  county : Option String := none
  neighborhood : Option String := none
  latitude : Option ℚ := none
  longitude : Option ℚ := none
  radius_km : Option ℚ := none
  ne_lat : Option ℚ := none
  ne_lng : Option ℚ := none
  sw_lat : Option ℚ := none
  sw_lng : Option ℚ := none
  property_type : Option String := none
  listing_type : Option String := none
  min_price : Option Int := none
  max_price : Option Int := none
  min_rooms : Option Int := none
  max_rooms : Option Int := none
  min_bedrooms : Option Int := none
  max_bedrooms : Option Int := none
  min_bathrooms : Option Int := none
  max_bathrooms : Option Int := none
  min_area : Option Int := none
  max_area : Option Int := none
  min_floor : Option Int := none
  max_floor : Option Int := none
  min_year_built : Option Int := none
  max_year_built : Option Int := none
  has_parking : Option Bool := none
  has_garage : Option Bool := none
  has_balcony : Option Bool := none
  has_terrace : Option Bool := none
  has_garden : Option Bool := none
  is_furnished : Option Bool := none
  energy_rating : Option String := none
  owner_id : Option Nat := none
  posted_since_days : Option Int := none
  exclude_sold_rented : Bool := true
  page : Int := 1
  page_size : Int := 20
  sort_by : String := "newest"
deriving DecidableEq, Repr

def validSortModes : List String :=
  ["newest", "oldest", "price_asc", "price_desc", "area_desc", "distance", "relevance"]

/-- A pydantic `Field(..., ge := b)` bound on an optional integer field. -/
def optGe (v : Option Int) (b : Int) : Bool :=
  match v with
  | none => true
  | some x => b ≤ x

def optLe (v : Option Int) (b : Int) : Bool :=
  match v with
  | none => true
  | some x => x ≤ b

def optGeQ (v : Option ℚ) (b : ℚ) : Bool :=
  match v with
  | none => true
  | some x => b ≤ x

def optLeQ (v : Option ℚ) (b : ℚ) : Bool :=
  match v with
  | none => true
  | some x => x ≤ b

/-- The per-field `Field(...)` constraints declared on `PropertySearchParams`. -/
def fieldConstraintsOk (p : PropertySearchParams) : Bool :=
  (match p.search_text with | none => true | some s => s.length ≤ 500) &&
  optGeQ p.latitude (-90) && optLeQ p.latitude 90 &&
  optGeQ p.longitude (-180) && optLeQ p.longitude 180 &&
  optGeQ p.radius_km (1/10) && optLeQ p.radius_km 50 &&
  optGeQ p.ne_lat (-90) && optLeQ p.ne_lat 90 &&
  optGeQ p.ne_lng (-180) && optLeQ p.ne_lng 180 &&
  optGeQ p.sw_lat (-90) && optLeQ p.sw_lat 90 &&
  optGeQ p.sw_lng (-180) && optLeQ p.sw_lng 180 &&
  optGe p.min_price 0 && optGe p.max_price 0 &&
  optGe p.min_rooms 1 && optGe p.max_rooms 1 &&
  optGe p.min_bedrooms 0 && optGe p.max_bedrooms 0 &&
  optGe p.min_bathrooms 1 && optGe p.max_bathrooms 1 &&
  optGe p.min_area 0 && optGe p.max_area 0 &&
  optGe p.min_year_built 1800 && optLe p.min_year_built 2025 &&
  optGe p.max_year_built 1800 && optLe p.max_year_built 2025 &&
  optGe p.posted_since_days 1 && optLe p.posted_since_days 365 &&
  (1 ≤ p.page) && (1 ≤ p.page_size) && (p.page_size ≤ 100)

/-- `validate_price_range`: raises iff `max_price` truthy, `min_price` truthy
and `max_price < min_price` (`if v and ... values[min_price] and v < ...`). -/
def validate_price_range (p : PropertySearchParams) : Bool :=
  !(truthyInt p.max_price && truthyInt p.min_price &&
    p.max_price.getD 0 < p.min_price.getD 0)

/-- `validate_rooms_range`: same truthiness-guarded check on the rooms pair. -/
def validate_rooms_range (p : PropertySearchParams) : Bool :=
  !(truthyInt p.max_rooms && truthyInt p.min_rooms &&
    p.max_rooms.getD 0 < p.min_rooms.getD 0)

/-- `validate_area_range`: same truthiness-guarded check on the area pair. -/
def validate_area_range (p : PropertySearchParams) : Bool :=
  !(truthyInt p.max_area && truthyInt p.min_area &&
    p.max_area.getD 0 < p.min_area.getD 0)

/-- `validate_sort`: membership of `sort_by` in the seven recognized modes. -/
def validate_sort (p : PropertySearchParams) : Bool :=
  validSortModes.contains p.sort_by

/-- Constructing `PropertySearchParams(**raw)`: the declared field constraints
and the four `@validator`s run; the first violation raises `ValidationError`.
These are the only validators the class declares. -/
def buildSearchParams (p : PropertySearchParams) : Except String PropertySearchParams :=
  if !fieldConstraintsOk p then
    .error "field constraint violated"
  else if !validate_price_range p then
    .error "max_price must be greater than min_price"
  else if !validate_rooms_range p then
    .error "max_rooms must be greater than min_rooms"
  else if !validate_area_range p then
    .error "max_area must be greater than min_area"
  else if !validate_sort p then
    .error "sort_by must be one of: newest, oldest, price_asc, price_desc, area_desc, distance, relevance"
  else
    .ok p

/-! ## `PropertyService.search_properties` (`property_service.py`, lines 203-271) -/

/-- The conjunction of `WHERE` predicates `search_properties` attaches:
base visibility plus the truthiness-guarded filters.  Note: `params.cities`,
bedrooms/bathrooms/floor/year/feature/geo filters are never consulted. -/
def searchFilter (params : PropertySearchParams) (p : Property) : Bool :=
  (p.status == PStatus.active) && (p.deleted_at == none) && (p.published_at != none) &&
  (if truthyStr params.city then ilikeContains p.city (params.city.getD "") else true) &&
  (match params.property_type with | none => true | some t => p.property_type == t) &&
  (match params.listing_type with | none => true | some t => p.listing_type == t) &&
  (if truthyInt params.min_price then params.min_price.getD 0 ≤ p.price else true) &&
  (if truthyInt params.max_price then p.price ≤ params.max_price.getD 0 else true) &&
  (if truthyInt params.min_rooms then params.min_rooms.getD 0 ≤ p.rooms else true) &&
  (if truthyInt params.max_rooms then p.rooms ≤ params.max_rooms.getD 0 else true) &&
  (if truthyInt params.min_area then params.min_area.getD 0 ≤ p.total_area else true) &&
  (if truthyInt params.max_area then p.total_area ≤ params.max_area.getD 0 else true)

/-- The `ORDER BY` clause `search_properties` attaches: a single key per mode,
no secondary tie-break; `oldest`, `distance` and `relevance` attach none. -/
def sortResults (params : PropertySearchParams) (l : List Property) : List Property :=
  if params.sort_by == "newest" then
    l.insertionSort (fun a b => b.created_at ≤ a.created_at)
  else if params.sort_by == "price_asc" then
    l.insertionSort (fun a b => a.price ≤ b.price)
  else if params.sort_by == "price_desc" then
    l.insertionSort (fun a b => b.price ≤ a.price)
  else if params.sort_by == "area_desc" then
    l.insertionSort (fun a b => b.total_area ≤ a.total_area)
  else
    l

/-- `search_properties`: filter, count the filtered set, sort, paginate with
`offset = (page - 1) * page_size`, `limit = page_size`. -/
def search_properties (db : List Property) (params : PropertySearchParams) :
    List Property × Nat :=
  let filtered := db.filter (searchFilter params)
  let total := filtered.length
  let sorted := sortResults params filtered
  let offset := ((params.page - 1) * params.page_size).toNat
  ((sorted.drop offset).take params.page_size.toNat, total)

/-! ## `AlertService._property_matches_search` (`alert_service.py`, lines 379-417) -/

/-- The in-memory matcher, clause for clause.  `params.cities` membership is a
Python `in` on the raw list (case-sensitive, exact); the single-`city` check is
a case-insensitive substring test; price and rooms ranges are truthiness
guarded; no other filter is evaluated (`# Add more filters as needed...`). -/
def _property_matches_search (prop : Property) (params : PropertySearchParams) : Bool :=
  if truthyList params.cities && !((params.cities.getD []).contains prop.city) then
    false
  else if truthyStr params.city && !(ilikeContains prop.city (params.city.getD "")) then
    false
  else if params.property_type.isSome && params.property_type != some prop.property_type then
    false
  else if params.listing_type.isSome && params.listing_type != some prop.listing_type then
    false
  else if truthyInt params.min_price && prop.price < params.min_price.getD 0 then
    false
  else if truthyInt params.max_price && params.max_price.getD 0 < prop.price then
    false
  else if truthyInt params.min_rooms && prop.rooms < params.min_rooms.getD 0 then
    false
  else if truthyInt params.max_rooms && params.max_rooms.getD 0 < prop.rooms then
    false
  else
    true

/-! ## `CacheService._generate_cache_key` (`app/core/cache.py`, lines 48-63)

`json.dumps(params, sort_keys=True, default=str)` followed by
`hashlib.md5(...).hexdigest()[:16]`.  The JSON values that reach this function
in the service are `None`, booleans, integers, strings and lists of strings
(`PValue` below); the strings that occur contain no characters JSON escapes.
MD5 is embedded in full (RFC 1321) over `Nat` byte lists. -/

inductive PValue
  | pnull
  | pbool (b : Bool)
  | pint (n : Int)
  | pstr (s : String)
  | plist (xs : List String)
deriving DecidableEq, Repr

def jsonStr (s : String) : String :=
  "\"" ++ s ++ "\""

def pvalueDump : PValue → String
  | .pnull => "null"
  | .pbool true => "true"
  | .pbool false => "false"
  | .pint n => toString n
  | .pstr s => jsonStr s
  | .plist xs => "[" ++ String.intercalate ", " (xs.map jsonStr) ++ "]"

/-- Lexicographic order on code-point lists: Python's `<=` on `str`. -/
def codesLe : List Nat → List Nat → Bool
  | [], _ => true
  | _ :: _, [] => false
  | a :: as, b :: bs =>
    if a < b then true else if b < a then false else codesLe as bs

def strLe (s t : String) : Bool :=
  codesLe (strCodes s) (strCodes t)

def insertField (f : String × PValue) :
    List (String × PValue) → List (String × PValue)
  | [] => [f]
  | g :: gs => if strLe f.1 g.1 then f :: g :: gs else g :: insertField f gs

/-- The key ordering `sort_keys=True` applies (stable, ascending by key). -/
def sortFields : List (String × PValue) → List (String × PValue)
  | [] => []
  | f :: fs => insertField f (sortFields fs)

def insertStr (s : String) : List String → List String
  | [] => [s]
  | t :: ts => if strLe s t then s :: t :: ts else t :: insertStr s ts

/-- Python `sorted` on a list of strings; the canonicalization the spec
prescribes for the `cities` list. -/
def sortStrings : List String → List String
  | [] => []
  | s :: ss => insertStr s (sortStrings ss)

/-- `json.dumps(params, sort_keys=True, default=str)` with the default
separators `", "` and `": "`. -/
def jsonDumpsSorted (fields : List (String × PValue)) : String :=
  "\x7b" ++
    String.intercalate ", "
      ((sortFields fields).map (fun f => jsonStr f.1 ++ ": " ++ pvalueDump f.2)) ++
  "\x7d"

/-! ### MD5 (RFC 1321), on byte lists -/

def md5K : List Nat := [
  3614090360, 3905402710, 606105819, 3250441966, 4118548399, 1200080426, 2821735955, 4249261313,
  1770035416, 2336552879, 4294925233, 2304563134, 1804603682, 4254626195, 2792965006, 1236535329,
  4129170786, 3225465664, 643717713, 3921069994, 3593408605, 38016083, 3634488961, 3889429448,
  568446438, 3275163606, 4107603335, 1163531501, 2850285829, 4243563512, 1735328473, 2368359562,
  4294588738, 2272392833, 1839030562, 4259657740, 2763975236, 1272893353, 4139469664, 3200236656,
  681279174, 3936430074, 3572445317, 76029189, 3654602809, 3873151461, 530742520, 3299628645,
  4096336452, 1126891415, 2878612391, 4237533241, 1700485571, 2399980690, 4293915773, 2240044497,
  1873313359, 4264355552, 2734768916, 1309151649, 4149444226, 3174756917, 718787259, 3951481745]

def md5S : List Nat := [
  7, 12, 17, 22, 7, 12, 17, 22, 7, 12, 17, 22, 7, 12, 17, 22,
  5, 9, 14, 20, 5, 9, 14, 20, 5, 9, 14, 20, 5, 9, 14, 20,
  4, 11, 16, 23, 4, 11, 16, 23, 4, 11, 16, 23, 4, 11, 16, 23,
  6, 10, 15, 21, 6, 10, 15, 21, 6, 10, 15, 21, 6, 10, 15, 21]

def M32 : Nat := 4294967296

def not32 (x : Nat) : Nat :=
  Nat.xor x 4294967295

def rotl32 (x n : Nat) : Nat :=
  Nat.lor (Nat.shiftLeft x n) (Nat.shiftRight x (32 - n)) % M32

structure MD5State where
  a : Nat
  b : Nat
  c : Nat
  d : Nat
deriving DecidableEq, Repr

def md5F (i b c d : Nat) : Nat :=
  if i < 16 then Nat.lor (Nat.land b c) (Nat.land (not32 b) d)
  else if i < 32 then Nat.lor (Nat.land d b) (Nat.land (not32 d) c)
  else if i < 48 then Nat.xor (Nat.xor b c) d
  else Nat.xor c (Nat.lor b (not32 d))

def md5G (i : Nat) : Nat :=
  if i < 16 then i
  else if i < 32 then (5 * i + 1) % 16
  else if i < 48 then (3 * i + 5) % 16
  else (7 * i) % 16

def md5Round (m : List Nat) (st : MD5State) (i : Nat) : MD5State :=
  let f := (md5F i st.b st.c st.d + st.a + md5K.getD i 0 + m.getD (md5G i) 0) % M32
  { a := st.d, b := (st.b + rotl32 f (md5S.getD i 0)) % M32, c := st.b, d := st.c }

def md5Block (st : MD5State) (m : List Nat) : MD5State :=
  let r := (List.range 64).foldl (md5Round m) st
  { a := (st.a + r.a) % M32, b := (st.b + r.b) % M32,
    c := (st.c + r.c) % M32, d := (st.d + r.d) % M32 }

/-- 64 bytes into 16 little-endian 32-bit words. -/
def bytesToWords : List Nat → List Nat
  | b0 :: b1 :: b2 :: b3 :: rest =>
      (b0 + 256 * b1 + 65536 * b2 + 16777216 * b3) :: bytesToWords rest
  | _ => []

def chunks64Aux : Nat → List Nat → List (List Nat)
  | 0, _ => []
  | _, [] => []
  | fuel + 1, x :: xs => ((x :: xs).take 64) :: chunks64Aux fuel ((x :: xs).drop 64)

def chunks64 (l : List Nat) : List (List Nat) :=
  chunks64Aux l.length l

def md5Pad (msg : List Nat) : List Nat :=
  let len := msg.length
  let zeros := (56 + 64 - ((len + 1) % 64)) % 64
  msg ++ [128] ++ List.replicate zeros 0 ++
    (List.range 8).map (fun i => Nat.shiftRight (len * 8) (8 * i) % 256)

def md5Init : MD5State :=
  { a := 1732584193, b := 4023233417, c := 2562383102, d := 271733878 }

def md5Bytes (msg : List Nat) : MD5State :=
  (chunks64 (md5Pad msg)).foldl (fun st blk => md5Block st (bytesToWords blk)) md5Init

def hexDigitChar (d : Nat) : Char :=
  Char.ofNat (if d < 10 then 48 + d else 87 + d)

def wordBytesLE (w : Nat) : List Nat :=
  [w % 256, Nat.shiftRight w 8 % 256, Nat.shiftRight w 16 % 256, Nat.shiftRight w 24 % 256]

def bytesToHexChars (bs : List Nat) : List Char :=
  bs.foldr (fun b acc => hexDigitChar (b / 16) :: hexDigitChar (b % 16) :: acc) []

/-- `hashlib.md5(bytes).hexdigest()`. -/
def md5Hexdigest (msg : List Nat) : String :=
  let st := md5Bytes msg
  String.mk (bytesToHexChars
    (wordBytesLE st.a ++ wordBytesLE st.b ++ wordBytesLE st.c ++ wordBytesLE st.d))

/-- `hashlib.md5(bytes).hexdigest()[:16]` (kept as the character list take). -/
def md5Hexdigest16 (msg : List Nat) : String :=
  String.mk ((md5Hexdigest msg).toList.take 16)

/-- `CacheService._generate_cache_key`: sort-and-serialize the parameters,
hash, and prepend the namespace prefix. -/
def _generate_cache_key (pre : String) (params : List (String × PValue)) : String :=
  pre ++ ":" ++ md5Hexdigest16 (strCodes (jsonDumpsSorted params))

/-! ## `CacheService` operations (`app/core/cache.py`)

State: the Redis keyspace plus the availability flags.  `failing := true`
models an unreachable backend: every Redis primitive raises.  Each service
method guards on `is_available` and wraps its body in `try/except`, so the
embedded method maps the raising branch to a miss or a no-op. -/

structure CacheState where
  cache_enabled : Bool := true
  connected : Bool := true
  failing : Bool := false
  store : List (String × String) := []
deriving DecidableEq, Repr

def is_available (st : CacheState) : Bool :=
  st.cache_enabled && st.connected

def strStartsWith (s pre : String) : Bool :=
  codesStartsWith (strCodes pre) (strCodes s)

def redisGet (st : CacheState) (k : String) : Except String (Option String) :=
  if st.failing then .error "ConnectionError"
  else .ok ((st.store.find? (fun e => e.1 == k)).map (fun e => e.2))

def redisSetex (st : CacheState) (k : String) (v : String) : Except String CacheState :=
  if st.failing then .error "ConnectionError"
  else .ok { st with store := (k, v) :: st.store.filter (fun e => e.1 != k) }

def redisDeleteKey (st : CacheState) (k : String) : Except String CacheState :=
  if st.failing then .error "ConnectionError"
  else .ok { st with store := st.store.filter (fun e => e.1 != k) }

/-- The `scan`-with-`match="search:*"` loop, collapsed to its net effect: the
list of keys in the `search:` namespace. -/
def redisScanSearchKeys (st : CacheState) : Except String (List String) :=
  if st.failing then .error "ConnectionError"
  else .ok ((st.store.map (fun e => e.1)).filter (fun k => strStartsWith k "search:"))

def redisDeleteKeys (st : CacheState) (ks : List String) : Except String CacheState :=
  if st.failing then .error "ConnectionError"
  else .ok { st with store := st.store.filter (fun e => !(ks.contains e.1)) }

/-- `CacheService.get_search_results` (lines 65-95).  A falsy (empty) cached
string is a miss, mirroring `if cached_data:`. -/
def get_search_results (st : CacheState) (params : List (String × PValue)) :
    Option String :=
  if !is_available st then none
  else
    match redisGet st (_generate_cache_key "search" params) with
    | .error _ => none
    | .ok none => none
    | .ok (some v) => if v != "" then some v else none

/-- `CacheService.set_search_results` (lines 97-134); the cache-metadata merge
into the stored payload is kept abstract in the payload string. -/
def set_search_results (st : CacheState) (params : List (String × PValue))
    (results : String) : CacheState :=
  if !is_available st then st
  else
    match redisSetex st (_generate_cache_key "search" params) results with
    | .error _ => st
    | .ok st1 => st1

/-- `CacheService.get_property` (lines 136-161). -/
def get_property (st : CacheState) (property_id : Nat) : Option String :=
  if !is_available st then none
  else
    match redisGet st ("property:" ++ toString property_id) with
    | .error _ => none
    | .ok none => none
    | .ok (some v) => if v != "" then some v else none

/-- `CacheService.set_property` (lines 163-190). -/
def set_property (st : CacheState) (property_id : Nat) (data : String) : CacheState :=
  if !is_available st then st
  else
    match redisSetex st ("property:" ++ toString property_id) data with
    | .error _ => st
    | .ok st1 => st1

/-- `CacheService.invalidate_property` (lines 192-210). -/
def invalidate_property (st : CacheState) (property_id : Nat) : CacheState :=
  if !is_available st then st
  else
    match redisDeleteKey st ("property:" ++ toString property_id) with
    | .error _ => st
    | .ok st1 => st1

/-- `CacheService.invalidate_search_cache` (lines 212-242): scan the `search:`
namespace and delete every key found. -/
def invalidate_search_cache (st : CacheState) : CacheState :=
  if !is_available st then st
  else
    match redisScanSearchKeys st with
    | .error _ => st
    | .ok keys =>
      match redisDeleteKeys st keys with
      | .error _ => st
      | .ok st1 => st1

/-! ## `PropertyService.calculate_price_per_sqm` and `update_property` -/

/-- Python `round` ties-to-even on the scaled value. -/
def roundHalfEven (q : ℚ) : ℤ :=
  let f := ⌊q⌋
  if q - f < 1 / 2 then f
  else if (1 : ℚ) / 2 < q - f then f + 1
  else if f % 2 = 0 then f else f + 1

def round2 (q : ℚ) : ℚ :=
  (roundHalfEven (q * 100) : ℚ) / 100

/-- `PropertyService.calculate_price_per_sqm` (lines 29-34): guarded division,
total for every area. -/
def calculate_price_per_sqm (price area : ℚ) : ℚ :=
  if 0 < area then round2 (price / area) else 0

/-- `PropertyService.get_by_id` with `include_deleted=False` (lines 74-87). -/
def findActiveById (db : List Property) (pid : Nat) : Option Property :=
  db.find? (fun p => p.id == pid && p.deleted_at == none)

/-- `PropertyUpdate` restricted to the updatable fields the embedded
`Property` carries; `none` models an unset field (`exclude_unset=True`). -/
structure PropertyUpdate where
  title : Option String := none
  price : Option Int := none
  total_area : Option Int := none
  city : Option String := none
  status : Option PStatus := none
deriving DecidableEq, Repr

def applyUpdate (p : Property) (u : PropertyUpdate) : Property :=
  { p with
    title := u.title.getD p.title
    price := u.price.getD p.price
    total_area := u.total_area.getD p.total_area
    city := u.city.getD p.city
    status := u.status.getD p.status }

/-- `PropertyService.update_property` (lines 103-137): find, ownership check,
apply the set fields, recompute `price_per_sqm` when price or area changed. -/
def update_property (db : List Property) (pid : Nat) (u : PropertyUpdate)
    (uid : Nat) : Except String (List Property × Option Property) :=
  match findActiveById db pid with
  | none => .ok (db, none)
  | some p =>
    if p.owner_id != uid then
      .error "You do not have permission to update this property"
    else
      let p1 := applyUpdate p u
      let p2 :=
        if u.price.isSome || u.total_area.isSome then
          { p1 with price_per_sqm :=
              calculate_price_per_sqm (p1.price : ℚ) (p1.total_area : ℚ) }
        else p1
      .ok (db.map (fun q => if q.id == pid then p2 else q), some p2)

/-! ## Mutation endpoints (`app/api/v1/endpoints/properties.py`)

The system state a mutation endpoint touches: the property table and the
cache.  The embedded endpoint performs exactly the cache calls its source
performs. -/

structure SysState where
  db : List Property
  cache : CacheState
deriving DecidableEq, Repr

/-- `PUT /properties/{id}` (lines 545-572): service update, 404 on missing;
the handler performs no cache operation. -/
def update_property_endpoint (st : SysState) (pid : Nat) (u : PropertyUpdate)
    (uid : Nat) : Except String (SysState × Property) :=
  match update_property st.db pid u uid with
  | .error e => .error e
  | .ok (_, none) => .error "Property not found"
  | .ok (db1, some p) => .ok ({ db := db1, cache := st.cache }, p)

/-- `POST /properties/{id}/unpublish` (lines 625-662): set status to draft,
then `invalidate_property` and `invalidate_search_cache`. -/
def unpublish_property_endpoint (st : SysState) (pid uid : Nat) :
    Except String (SysState × Property) :=
  match findActiveById st.db pid with
  | none => .error "Property not found"
  | some p =>
    if p.owner_id != uid then
      .error "You do not have permission to unpublish this property"
    else
      let p1 := { p with status := PStatus.draft }
      let db1 := st.db.map (fun q => if q.id == pid then p1 else q)
      let c1 := invalidate_property st.cache pid
      let c2 := invalidate_search_cache c1
      .ok ({ db := db1, cache := c2 }, p1)

/-! ## `AlertService`: favorites and price tracking (`alert_service.py`) -/

structure UserR where
  id : Nat
  email : String
  is_active : Bool := true
deriving DecidableEq, Repr

structure FavoriteR where
  user_id : Nat
  property_id : Nat
deriving DecidableEq, Repr

structure PriceDropAlert where
  to_email : String
  old_price : ℚ
  new_price : ℚ
  price_drop_percent : ℚ
deriving DecidableEq, Repr

structure PriceHistoryR where
  property_id : Nat
  old_price : Int
  new_price : Int
  price_change_percent : ℚ
deriving DecidableEq, Repr

/-- `AlertService._send_price_drop_alerts` (lines 289-331): look the property
up, find the listing's favorites, and email each favoriter whose user row
exists and is active. -/
def _send_price_drop_alerts (db : List Property) (favorites : List FavoriteR)
    (users : List UserR) (property_id : Nat) (old_price new_price : Int)
    (price_drop_percent : ℚ) : List PriceDropAlert :=
  match findActiveById db property_id with
  | none => []
  | some _ =>
    (favorites.filter (fun f => f.property_id == property_id)).filterMap (fun f =>
      match users.find? (fun u => u.id == f.user_id) with
      | some u =>
        if u.is_active then
          some { to_email := u.email, old_price := (old_price : ℚ),
                 new_price := (new_price : ℚ),
                 price_drop_percent := price_drop_percent }
        else none
      | none => none)

/-- `AlertService.track_price_change` (lines 263-287): always record history
with `price_change_percent = (new - old) / old * 100`; fan alerts out only
when the price dropped. -/
def track_price_change (db : List Property) (favorites : List FavoriteR)
    (users : List UserR) (property_id : Nat) (old_price new_price : Int) :
    PriceHistoryR × List PriceDropAlert :=
  let pct : ℚ := ((new_price : ℚ) - (old_price : ℚ)) / (old_price : ℚ) * 100
  let hist : PriceHistoryR :=
    { property_id := property_id, old_price := old_price, new_price := new_price,
      price_change_percent := pct }
  (hist,
    if new_price < old_price then
      _send_price_drop_alerts db favorites users property_id old_price new_price pct
    else [])

/-! ## `AlertService.add_favorite` / `remove_favorite` (lines 153-259) -/

structure FavState where
  props : List Property
  favs : List FavoriteR
deriving DecidableEq, Repr

def findFavorite (st : FavState) (uid pid : Nat) : Option FavoriteR :=
  st.favs.find? (fun f => f.user_id == uid && f.property_id == pid)

/-- `add_favorite`: reject a duplicate, require the property to exist, insert
the favorite and increment the property's `favorite_count` by one. -/
def add_favorite (st : FavState) (uid pid : Nat) :
    Except String (FavState × FavoriteR) :=
  if (findFavorite st uid pid).isSome then
    .error "Property already in favorites"
  else if (st.props.find? (fun p => p.id == pid)).isNone then
    .error "Property not found"
  else
    let fav : FavoriteR := { user_id := uid, property_id := pid }
    let props1 := st.props.map (fun p =>
      if p.id == pid then { p with favorite_count := p.favorite_count + 1 } else p)
    .ok ({ props := props1, favs := st.favs ++ [fav] }, fav)

/-- `remove_favorite`: missing favorite returns `false`; otherwise delete the
row and decrement `favorite_count`, clamped at zero via `max(0, n - 1)`. -/
def remove_favorite (st : FavState) (uid pid : Nat) : FavState × Bool :=
  match findFavorite st uid pid with
  | none => (st, false)
  | some fav =>
    let props1 := st.props.map (fun p =>
      if p.id == pid then { p with favorite_count := max 0 (p.favorite_count - 1) } else p)
    ({ props := props1, favs := st.favs.erase fav }, true)

/-! ## Concrete fixtures used by individual claim theorems -/

/-- The `favorite_count` of the property row with a given id. -/
def favCountOf (l : List Property) (pid : Nat) : Option Int :=
  (l.find? (fun p => p.id == pid)).map (fun p => p.favorite_count)

def c1Listing : Property :=
  { id := 1, owner_id := 2, city := "bucharest", status := .active,
    price := 100000, total_area := 50, published_at := some 1 }

def c1CitiesParams : PropertySearchParams :=
  { cities := some ["Bucharest"] }

def c1AreaParams : PropertySearchParams :=
  { min_area := some 100 }

def c3Prop : Property :=
  { id := 1, owner_id := 7, city := "Cluj", status := .active,
    price := 100000, total_area := 50, published_at := some 1 }

def c3Params : List (String × PValue) :=
  [("city", PValue.pstr "Cluj"), ("page", PValue.pint 1)]

/-- Cache pre-state: a search page and the entity snapshot are cached. -/
def c3Cache0 : CacheState :=
  set_property (set_search_results {} c3Params "results-page-v1") 1 "entity-v1"

def c3State0 : SysState :=
  { db := [c3Prop], cache := c3Cache0 }

def c3Upd : PropertyUpdate :=
  { price := some 90000 }

def c4W : PropertySearchParams :=
  { min_price := some 2, max_price := some 5 }

def c6A : Property :=
  { id := 1, owner_id := 2, city := "Cluj", status := .active,
    price := 100, total_area := 40, created_at := 5, published_at := some 1 }

def c6B : Property :=
  { id := 2, owner_id := 2, city := "Cluj", status := .active,
    price := 100, total_area := 60, created_at := 6, published_at := some 1 }

def c6C : Property :=
  { id := 3, owner_id := 2, city := "Cluj", status := .active,
    price := 120, total_area := 80, created_at := 7, published_at := some 1 }

def c6Db3 : List Property :=
  [c6B, c6C, c6A]

def c6Base : PropertySearchParams :=
  { sort_by := "price_asc" }

def c6Page1 : PropertySearchParams :=
  { sort_by := "price_asc", page := 1, page_size := 1 }

def c6Page2 : PropertySearchParams :=
  { sort_by := "price_asc", page := 2, page_size := 1 }

def c7FailingState : CacheState :=
  { failing := true, store := [("search:abcd", "page"), ("property:5", "entity")] }

def c7Params : List (String × PValue) :=
  [("city", PValue.pstr "Iasi")]

def c8Db : List Property :=
  [{ id := 1, owner_id := 2, city := "Cluj", status := .active,
     price := 120000, total_area := 50, published_at := some 1 }]

def c8Favorites : List FavoriteR :=
  [{ user_id := 11, property_id := 1 }, { user_id := 12, property_id := 1 },
   { user_id := 13, property_id := 1 }]

def c8Users : List UserR :=
  [{ id := 11, email := "u11@x" }, { id := 12, email := "u12@x" },
   { id := 13, email := "u13@x" }]

def c9Prop : Property :=
  { id := 1, owner_id := 7, city := "Cluj", status := .active,
    price := 100000, total_area := 50, published_at := some 1 }

def c9Db : List Property :=
  [c9Prop]

def c9Upd : PropertyUpdate :=
  { total_area := some 0 }

def c10State : FavState :=
  { props := [{ id := 1, owner_id := 2, city := "Cluj", price := 100,
                total_area := 40, favorite_count := 0 }],
    favs := [{ user_id := 9, property_id := 1 }] }

def c10StateB : FavState :=
  { props := [{ id := 1, owner_id := 2, city := "Cluj", price := 100,
                total_area := 40, favorite_count := 3 }],
    favs := [] }

example : strContains "bucharest" "char" = true := by decide
example : ilikeContains "Bucharest" "bucha" = true := by decide
example : buildSearchParams {} = .ok {} := by rfl
example :
    _property_matches_search
      { id := 1, owner_id := 2, city := "bucharest", status := .active,
        price := 100000, total_area := 50, published_at := some 1 }
      { cities := some ["Bucharest"] } = false := by decide
example :
    (search_properties
      [{ id := 1, owner_id := 2, city := "bucharest", status := .active,
         price := 100000, total_area := 50, published_at := some 1 }]
      { cities := some ["Bucharest"] }).1 =
    [{ id := 1, owner_id := 2, city := "bucharest", status := .active,
       price := 100000, total_area := 50, published_at := some 1 }] := by decide
set_option maxRecDepth 100000

example : md5Hexdigest (strCodes "") = "d41d8cd98f00b204e9800998ecf8427e" := by decide
example : md5Hexdigest (strCodes "abc") = "900150983cd24fb0d6963f7d28e17f72" := by decide
example :
    _generate_cache_key "search" [("cities", .plist ["a", "b"])] =
      "search:2aa858cea65c73e1" := by decide
example :
    _generate_cache_key "search" [("cities", .plist ["b", "a"])] =
      "search:39bea10475bef90e" := by decide

/-! ## Shared lemmas -/

/-- A successful `PropertySearchParams` construction returns its input and
certifies every declared check. -/
theorem buildSearchParams_ok_checks {r p : PropertySearchParams}
    (h : buildSearchParams r = .ok p) :
    p = r ∧ fieldConstraintsOk r = true ∧ validate_price_range r = true ∧
    validate_rooms_range r = true ∧ validate_area_range r = true ∧
    validate_sort r = true := by
  unfold buildSearchParams at h
  split_ifs at h with h1 h2 h3 h4 h5
  all_goals
    first
      | exact Except.noConfusion h
      | (injection h with h0
         refine ⟨h0.symm, ?_, ?_, ?_, ?_, ?_⟩ <;> simp_all)

/-! ## Claim theorems -/

/-- C1: the in-memory matcher and the query composer are claimed to agree on
every listing and filter payload, with a case-insensitive city-list test.
The code diverges: the matcher's `cities` test is a case-sensitive exact
membership while `search_properties` never consults `cities` at all, and
`search_properties` enforces the area range that the matcher ignores.  Both
directions of the divergence are evaluated here on a single-listing store. -/
theorem c1_matcher_composer_divergence :
    _property_matches_search c1Listing c1CitiesParams = false ∧
    (search_properties [c1Listing] c1CitiesParams).1 = [c1Listing] ∧
    _property_matches_search c1Listing c1AreaParams = true ∧
    (search_properties [c1Listing] c1AreaParams).1 = [] := by
  refine ⟨by decide, by decide, by decide, by decide⟩

/-- C2 counterexample: two parameter maps that agree after the claimed
canonicalization (the `cities` lists are equal once sorted) produce different
cache keys, because `_generate_cache_key` serializes the list in the order
given. -/
theorem c2_cities_order_changes_cache_key :
    sortStrings ["a", "b"] = sortStrings ["b", "a"] ∧
    _generate_cache_key "search" [("cities", PValue.plist ["a", "b"])] ≠
      _generate_cache_key "search" [("cities", PValue.plist ["b", "a"])] :=
  ⟨by decide, by decide⟩

/-- C2 amended: the cache key is deterministic in the construction order of
the parameter mapping — any two maps with the same key-sorted field list get
the same key — but not in the order of a `cities` list value nor in the case
or whitespace of the free-text value. -/
theorem c2_cache_key_deterministic_in_field_order (pre : String)
    (p1 p2 : List (String × PValue)) (h : sortFields p1 = sortFields p2) :
    _generate_cache_key pre p1 = _generate_cache_key pre p2 := by
  unfold _generate_cache_key jsonDumpsSorted
  rw [h]

/-- C2 witness: the two construction orders of the same two-field mapping. -/
theorem c2_cache_key_deterministic_witness :
    sortFields [("a", PValue.pint 2), ("b", PValue.pint 1)] =
      sortFields [("b", PValue.pint 1), ("a", PValue.pint 2)] ∧
    _generate_cache_key "search" [("a", PValue.pint 2), ("b", PValue.pint 1)] =
      _generate_cache_key "search" [("b", PValue.pint 1), ("a", PValue.pint 2)] :=
  ⟨by decide, c2_cache_key_deterministic_in_field_order "search" _ _ (by decide)⟩

/-- C4 counterexample: the bedrooms pair has no range validator, so a params
object with `min_bedrooms = 5 > 2 = max_bedrooms` constructs successfully
instead of raising. -/
theorem c4_unchecked_bedrooms_pair :
    buildSearchParams { min_bedrooms := some 5, max_bedrooms := some 2 } =
      .ok { min_bedrooms := some 5, max_bedrooms := some 2 } ∧ (2 : Int) < 5 :=
  ⟨rfl, by decide⟩

/-- C4 amended: only the price, rooms and area pairs are validated, and only
when both bounds are truthy (present and nonzero); every successfully
constructed params object satisfies `min ≤ max` on those three pairs under
that proviso. -/
theorem c4_checked_range_pairs_hold (r p : PropertySearchParams)
    (h : buildSearchParams r = .ok p) :
    (truthyInt p.min_price = true → truthyInt p.max_price = true →
      p.min_price.getD 0 ≤ p.max_price.getD 0) ∧
    (truthyInt p.min_rooms = true → truthyInt p.max_rooms = true →
      p.min_rooms.getD 0 ≤ p.max_rooms.getD 0) ∧
    (truthyInt p.min_area = true → truthyInt p.max_area = true →
      p.min_area.getD 0 ≤ p.max_area.getD 0) := by
  obtain ⟨rfl, -, hp, hr, ha, -⟩ := buildSearchParams_ok_checks h
  refine ⟨?_, ?_, ?_⟩ <;> intro h1 h2
  · simp [validate_price_range, h1, h2] at hp
    omega
  · simp [validate_rooms_range, h1, h2] at hr
    omega
  · simp [validate_area_range, h1, h2] at ha
    omega

/-- C4 witness: a params object with both price bounds present and nonzero. -/
theorem c4_checked_range_pairs_witness :
    buildSearchParams c4W = .ok c4W ∧
    c4W.min_price.getD 0 ≤ c4W.max_price.getD 0 :=
  ⟨rfl, (c4_checked_range_pairs_hold c4W c4W rfl).1 (by decide) (by decide)⟩

/-- C5 counterexample: `sort_by = "distance"` with no center point and no
bounding box, and `sort_by = "relevance"` with no free text, both construct
successfully instead of raising. -/
theorem c5_distance_without_geo_accepted :
    buildSearchParams { sort_by := "distance" } = .ok { sort_by := "distance" } ∧
    ({ sort_by := "distance" } : PropertySearchParams).latitude = none ∧
    ({ sort_by := "distance" } : PropertySearchParams).ne_lat = none ∧
    buildSearchParams { sort_by := "relevance" } = .ok { sort_by := "relevance" } ∧
    ({ sort_by := "relevance" } : PropertySearchParams).search_text = none :=
  ⟨rfl, rfl, rfl, rfl, rfl⟩

/-- C5 amended: `validate_sort` checks membership in the seven recognized
modes and nothing else — unknown modes are rejected, and every successful
construction has a recognized mode; the distance/relevance preconditions are
not validated. -/
theorem c5_sort_membership_only (r : PropertySearchParams) :
    (validSortModes.contains r.sort_by = false →
      (buildSearchParams r).isOk = false) ∧
    (∀ p, buildSearchParams r = .ok p →
      validSortModes.contains p.sort_by = true) := by
  constructor
  · intro hc
    unfold buildSearchParams
    split_ifs with h1 h2 h3 h4 h5 <;>
      first
        | rfl
        | (have hv : validate_sort r = true := by
             revert h5
             simp
           unfold validate_sort at hv
           rw [hc] at hv
           exact Bool.noConfusion hv)
  · intro p h
    obtain ⟨rfl, -, -, -, -, hs⟩ := buildSearchParams_ok_checks h
    simpa [validate_sort] using hs

/-- C5 witness: an unrecognized sort mode is rejected. -/
theorem c5_sort_membership_witness :
    (buildSearchParams { sort_by := "banana" }).isOk = false :=
  (c5_sort_membership_only { sort_by := "banana" }).1 (by decide)

/-- C7: when the cache is unavailable (disabled or disconnected) or the
backend raises on every operation, both gets return a miss, both puts and
both invalidations leave the cache state untouched, and no error escapes —
each operation returns normally. -/
theorem c7_cache_degrades_to_noop (st : CacheState)
    (params : List (String × PValue)) (pid : Nat) (data : String)
    (h : is_available st = false ∨ st.failing = true) :
    get_search_results st params = none ∧
    get_property st pid = none ∧
    set_search_results st params data = st ∧
    set_property st pid data = st ∧
    invalidate_property st pid = st ∧
    invalidate_search_cache st = st := by
  cases hb : is_available st with
  | false =>
    refine ⟨?_, ?_, ?_, ?_, ?_, ?_⟩ <;>
      simp [get_search_results, get_property, set_search_results, set_property,
            invalidate_property, invalidate_search_cache, hb]
  | true =>
    rcases h with h | h
    · exact absurd hb (by simp [h])
    · refine ⟨?_, ?_, ?_, ?_, ?_, ?_⟩ <;>
        simp [get_search_results, get_property, set_search_results, set_property,
              invalidate_property, invalidate_search_cache, redisGet, redisSetex,
              redisDeleteKey, redisScanSearchKeys, redisDeleteKeys, hb, h]

/-- C7 witness: a populated cache whose backend raises. -/
theorem c7_cache_degrades_witness :
    get_search_results c7FailingState c7Params = none ∧
    get_property c7FailingState 5 = none ∧
    set_search_results c7FailingState c7Params "data" = c7FailingState ∧
    set_property c7FailingState 5 "data" = c7FailingState ∧
    invalidate_property c7FailingState 5 = c7FailingState ∧
    invalidate_search_cache c7FailingState = c7FailingState :=
  c7_cache_degrades_to_noop c7FailingState c7Params 5 "data" (Or.inr rfl)

/-- C9: `calculate_price_per_sqm` is total — positive area divides and rounds
to two decimals, any other area returns `0` with no division performed — and
consequently an update that sets `total_area` to `0` still succeeds, storing
`price_per_sqm = 0`. -/
theorem c9_price_per_sqm_total (price area : ℚ) (db : List Property)
    (pid uid : Nat) (u : PropertyUpdate) (p : Property)
    (hfind : findActiveById db pid = some p) (hown : p.owner_id = uid)
    (harea : u.total_area = some 0) :
    (0 < area → calculate_price_per_sqm price area = round2 (price / area)) ∧
    (area ≤ 0 → calculate_price_per_sqm price area = 0) ∧
    ((update_property db pid u uid).toOption.map
        (fun r => r.2.map (fun q => q.price_per_sqm))) = some (some 0) := by
  refine ⟨?_, ?_, ?_⟩
  · intro hpos
    simp [calculate_price_per_sqm, hpos]
  · intro hnp
    simp [calculate_price_per_sqm, not_lt.mpr hnp]
  · simp [update_property, hfind, hown, harea, applyUpdate, calculate_price_per_sqm]
    exact ⟨_, _, rfl, _, rfl, rfl⟩

/-- C9 witness: zero area through the pure function and through an update. -/
theorem c9_price_per_sqm_witness :
    calculate_price_per_sqm 100 0 = 0 ∧
    ((update_property c9Db 1 c9Upd 7).toOption.map
        (fun r => r.2.map (fun q => q.price_per_sqm))) = some (some 0) := by
  have h := c9_price_per_sqm_total 100 0 c9Db 1 7 c9Upd c9Prop rfl rfl rfl
  exact ⟨h.2.1 le_rfl, h.2.2⟩

theorem favCountOf_cons (a : Property) (l : List Property) (qid : Nat) :
    favCountOf (a :: l) qid =
      if a.id = qid then some a.favorite_count else favCountOf l qid := by
  by_cases h : a.id = qid
  · simp [favCountOf, List.find?_cons, h]
  · simp [favCountOf, List.find?_cons, h]

/-- `favCountOf` after updating the count of the row with the given id. -/
theorem favCountOf_map_ite (l : List Property) (pid : Nat) (g : Int → Int) :
    favCountOf (l.map (fun p =>
      if p.id == pid then { p with favorite_count := g p.favorite_count } else p)) pid
      = (favCountOf l pid).map g := by
  induction l with
  | nil => rfl
  | cons p ps ih =>
    rw [List.map_cons, favCountOf_cons, favCountOf_cons]
    simp only [beq_iff_eq] at ih ⊢
    by_cases h : p.id = pid
    · simp [h]
    · simp [h, ih]

/-- Updating the count of one id leaves every other id's count unchanged. -/
theorem favCountOf_map_ite_ne (l : List Property) (pid qid : Nat)
    (hne : qid ≠ pid) (g : Int → Int) :
    favCountOf (l.map (fun p =>
      if p.id == pid then { p with favorite_count := g p.favorite_count } else p)) qid
      = favCountOf l qid := by
  induction l with
  | nil => rfl
  | cons p ps ih =>
    rw [List.map_cons, favCountOf_cons, favCountOf_cons]
    simp only [beq_iff_eq] at ih ⊢
    by_cases h : p.id = pid
    · simp [h, Ne.symm hne, ih]
    · by_cases hq : p.id = qid
      · simp [h, hq, hne]
      · simp [h, hq, ih]

/-- A count update that preserves nonnegativity preserves the row invariant. -/
theorem nonneg_map_ite (l : List Property) (pid : Nat) (g : Int → Int)
    (hg : ∀ n : Int, 0 ≤ n → 0 ≤ g n) (h : ∀ p ∈ l, 0 ≤ p.favorite_count) :
    ∀ p ∈ l.map (fun p =>
      if p.id == pid then { p with favorite_count := g p.favorite_count } else p),
      0 ≤ p.favorite_count := by
  intro p hp
  rcases List.mem_map.mp hp with ⟨q, hq, rfl⟩
  by_cases hid : q.id = pid
  · simpa [hid] using hg _ (h q hq)
  · simpa [hid] using h q hq

/-- C10: `favorite_count` stays nonnegative under the favorites operations —
`add_favorite` rejects a duplicate without returning a new state, a
successful add increments the listing's count by exactly one and touches no
other listing, and `remove_favorite` decrements with a clamp at zero. -/
theorem c10_favorite_count_invariant (st : FavState) (uid pid : Nat)
    (hinv : ∀ p ∈ st.props, 0 ≤ p.favorite_count) :
    ((findFavorite st uid pid).isSome = true →
      (add_favorite st uid pid).isOk = false) ∧
    (∀ st1 fav, add_favorite st uid pid = .ok (st1, fav) →
      (findFavorite st uid pid).isSome = false ∧
      (∀ p ∈ st1.props, 0 ≤ p.favorite_count) ∧
      favCountOf st1.props pid = (favCountOf st.props pid).map (fun n => n + 1) ∧
      (∀ qid, qid ≠ pid → favCountOf st1.props qid = favCountOf st.props qid)) ∧
    ((remove_favorite st uid pid).2 = false → (remove_favorite st uid pid).1 = st) ∧
    (∀ p ∈ (remove_favorite st uid pid).1.props, 0 ≤ p.favorite_count) ∧
    ((remove_favorite st uid pid).2 = true →
      favCountOf (remove_favorite st uid pid).1.props pid =
        (favCountOf st.props pid).map (fun n => max 0 (n - 1))) := by
  refine ⟨?_, ?_, ?_, ?_, ?_⟩
  · intro hdup
    rw [add_favorite, if_pos hdup]
    rfl
  · intro st1 fav heq
    unfold add_favorite at heq
    split_ifs at heq with hd hp
    injection heq with h1
    injection h1 with hst hfav
    subst hst
    refine ⟨by simpa using hd, ?_, ?_, ?_⟩
    · exact nonneg_map_ite st.props pid (fun n => n + 1)
        (fun n hn => by show 0 ≤ n + 1; omega) hinv
    · exact favCountOf_map_ite st.props pid (fun n => n + 1)
    · intro qid hq
      exact favCountOf_map_ite_ne st.props pid qid hq (fun n => n + 1)
  · intro hfalse
    unfold remove_favorite at hfalse ⊢
    cases hf : findFavorite st uid pid with
    | none => rfl
    | some fav => rw [hf] at hfalse; exact Bool.noConfusion hfalse
  · unfold remove_favorite
    cases hf : findFavorite st uid pid with
    | none => exact hinv
    | some fav =>
      exact nonneg_map_ite st.props pid (fun n => max 0 (n - 1))
        (fun n hn => le_max_left 0 _) hinv
  · intro htrue
    unfold remove_favorite at htrue ⊢
    cases hf : findFavorite st uid pid with
    | none => rw [hf] at htrue; exact Bool.noConfusion htrue
    | some fav =>
      exact favCountOf_map_ite st.props pid (fun n => max 0 (n - 1))

/-- C10 witness: a duplicate rejection, a clamped removal at count `0`, and a
successful add incrementing `3` to `4`. -/
theorem c10_favorite_count_witness :
    (add_favorite c10State 9 1).isOk = false ∧
    favCountOf (remove_favorite c10State 9 1).1.props 1 =
      (favCountOf c10State.props 1).map (fun n => max 0 (n - 1)) ∧
    favCountOf (remove_favorite c10State 9 1).1.props 1 = some 0 ∧
    favCountOf ((add_favorite c10StateB 9 1).toOption.map
        (fun r => r.1.props)).iget 1 = some 4 := by
  have h1 := c10_favorite_count_invariant c10State 9 1 (by decide)
  refine ⟨h1.1 (by decide), h1.2.2.2.2 (by decide), by decide, by decide⟩

/-- `filterMap` keeps as many elements as the `isSome` filter. -/
theorem length_filterMap_eq {α β : Type} (f : α → Option β) (l : List α) :
    (l.filterMap f).length = (l.filter (fun a => (f a).isSome)).length := by
  induction l with
  | nil => rfl
  | cons a t ih =>
    cases hfa : f a <;> simp [List.filterMap_cons, List.filter_cons, hfa, ih]

/-- C8: `track_price_change` always records the signed percentage
`(new - old) / old * 100`; price-drop alerts go out exactly when the price
dropped, one per favorite of the listing whose user row exists and is
active, each alert carrying the old price, the new price and that same
(negative) percentage. -/
theorem c8_price_drop_alerts (db : List Property) (favorites : List FavoriteR)
    (users : List UserR) (pid : Nat) (oldp newp : Int)
    (hp : (findActiveById db pid).isSome = true) :
    (track_price_change db favorites users pid oldp newp).1.price_change_percent =
      ((newp : ℚ) - (oldp : ℚ)) / (oldp : ℚ) * 100 ∧
    (¬ newp < oldp → (track_price_change db favorites users pid oldp newp).2 = []) ∧
    (newp < oldp →
      (track_price_change db favorites users pid oldp newp).2.length =
        ((favorites.filter (fun f => f.property_id == pid)).filter (fun f =>
            match users.find? (fun u => u.id == f.user_id) with
            | some u => u.is_active
            | none => false)).length) ∧
    (∀ a ∈ (track_price_change db favorites users pid oldp newp).2,
      a.old_price = (oldp : ℚ) ∧ a.new_price = (newp : ℚ) ∧
      a.price_drop_percent = ((newp : ℚ) - (oldp : ℚ)) / (oldp : ℚ) * 100) := by
  obtain ⟨pr, hpr⟩ := Option.isSome_iff_exists.mp hp
  refine ⟨rfl, ?_, ?_, ?_⟩
  · intro hnd
    simp [track_price_change, hnd]
  · intro hd
    simp only [track_price_change, if_pos hd]
    unfold _send_price_drop_alerts
    rw [hpr, length_filterMap_eq]
    congr 1
    apply List.filter_congr
    intro f hf
    cases hu : users.find? (fun u => u.id == f.user_id) with
    | none => simp [hu]
    | some u => cases hua : u.is_active <;> simp [hu, hua]
  · intro a ha
    by_cases hd : newp < oldp
    · simp only [track_price_change, if_pos hd] at ha
      unfold _send_price_drop_alerts at ha
      rw [hpr] at ha
      rcases List.mem_filterMap.mp ha with ⟨f, hfmem, hfa⟩
      cases hu : users.find? (fun u => u.id == f.user_id) with
      | none => rw [hu] at hfa; exact Option.noConfusion hfa
      | some u =>
        rw [hu] at hfa
        have hfa2 : (if u.is_active = true then
            some ({ to_email := u.email, old_price := (oldp : ℚ),
                    new_price := (newp : ℚ),
                    price_drop_percent :=
                      ((newp : ℚ) - (oldp : ℚ)) / (oldp : ℚ) * 100 } :
              PriceDropAlert) else none) = some a := hfa
        by_cases hua : u.is_active = true
        · rw [if_pos hua] at hfa2
          injection hfa2 with hfa1
          subst hfa1
          exact ⟨rfl, rfl, rfl⟩
        · rw [if_neg hua] at hfa2
          exact Option.noConfusion hfa2
    · simp only [track_price_change, if_neg hd] at ha
      exact absurd ha (List.not_mem_nil a)

/-- C8 witness: the spec scenario — 120000 → 99000 with three favoriting
users — yields exactly three alerts, each at `-17.5` percent. -/
theorem c8_price_drop_alerts_witness :
    (findActiveById c8Db 1).isSome = true ∧
    (track_price_change c8Db c8Favorites c8Users 1 120000 99000).1.price_change_percent =
      ((99000 : ℚ) - (120000 : ℚ)) / (120000 : ℚ) * 100 ∧
    (track_price_change c8Db c8Favorites c8Users 1 120000 99000).2.length = 3 ∧
    (track_price_change c8Db c8Favorites c8Users 1 120000 99000).2.map
        (fun a => a.price_drop_percent) =
      [((99000 : ℚ) - (120000 : ℚ)) / (120000 : ℚ) * 100,
       ((99000 : ℚ) - (120000 : ℚ)) / (120000 : ℚ) * 100,
       ((99000 : ℚ) - (120000 : ℚ)) / (120000 : ℚ) * 100] ∧
    ((99000 : ℚ) - (120000 : ℚ)) / (120000 : ℚ) * 100 = -(35 : ℚ) / 2 := by
  have h := c8_price_drop_alerts c8Db c8Favorites c8Users 1 120000 99000 (by decide)
  refine ⟨by decide, h.1, ?_, by rfl, by norm_num⟩
  rw [(h.2.2.1 (by decide) : _)]
  decide

/-- C3: only the unpublish endpoint evicts caches.  With a cached search
page and a cached entity, a successful price update through the update
endpoint returns with the cache byte-for-byte unchanged, so the same search
still serves the pre-mutation page and the entity key still serves the
pre-mutation snapshot; the unpublish endpoint, by contrast, evicts both. -/
theorem c3_update_endpoint_leaves_stale_cache :
    get_search_results c3Cache0 c3Params = some "results-page-v1" ∧
    get_property c3Cache0 1 = some "entity-v1" ∧
    (update_property_endpoint c3State0 1 c3Upd 7).toOption.map
        (fun r => r.1.cache) = some c3Cache0 ∧
    (update_property_endpoint c3State0 1 c3Upd 7).toOption.map
        (fun r => get_search_results r.1.cache c3Params) =
      some (some "results-page-v1") ∧
    (unpublish_property_endpoint c3State0 1 7).toOption.map
        (fun r => get_search_results r.1.cache c3Params) = some none ∧
    (unpublish_property_endpoint c3State0 1 7).toOption.map
        (fun r => get_property r.1.cache 1) = some none := by
  exact ⟨by decide, by decide, by decide, by decide, by decide, by decide⟩

/-- The page slice `search_properties` returns, unfolded. -/
theorem search_properties_fst (db : List Property) (q : PropertySearchParams) :
    (search_properties db q).1 =
      ((sortResults q (db.filter (searchFilter q))).drop
        ((q.page - 1) * q.page_size).toNat).take q.page_size.toNat := rfl

/-- `sortResults` permutes its input (each branch is an insertion sort). -/
theorem sortResults_perm (q : PropertySearchParams) (l : List Property) :
    (sortResults q l).Perm l := by
  unfold sortResults
  split_ifs <;> first | exact List.perm_insertionSort _ _ | exact List.Perm.refl _

/-- C6 counterexample: two listings tied on price.  Over the same dataset in
the two scan orders the database may use, `price_asc` serves listing `A` on
page 1 of one order and again on page 2 of the other — a repeat — and the
order produced is not the claimed `(price, id ascending)` order. -/
theorem c6_no_tie_break_pagination_unstable :
    List.Perm [c6A, c6B] [c6B, c6A] ∧
    c6A.price = c6B.price ∧ c6A.id < c6B.id ∧
    (search_properties [c6B, c6A] c6Page1).1 = [c6B] ∧
    (search_properties [c6A, c6B] c6Page1).1 = [c6A] ∧
    (search_properties [c6B, c6A] c6Page2).1 = [c6A] := by
  refine ⟨by decide, by decide, by decide, by decide, by decide, by decide⟩


/-- The visibility/filter predicate never reads the pagination fields. -/
theorem searchFilter_page_eq (p : PropertySearchParams) (N S : Int) :
    searchFilter { p with page := N, page_size := S } = searchFilter p := rfl

/-- The ordering clause never reads the pagination fields. -/
theorem sortResults_page_eq (p : PropertySearchParams) (N S : Int)
    (l : List Property) :
    sortResults { p with page := N, page_size := S } l = sortResults p l := rfl

/-- C6 amended: each sort mode orders by its single primary key only (and
`oldest`, `distance`, `relevance` attach no ordering).  For one fixed scan
order of the store, consecutive pages are consecutive disjoint segments of
the one deterministically sorted list — page `n` and page `n + 1` then never
repeat nor skip a record; with tied keys and a different scan order they
can (see the counterexample). -/
theorem c6_pages_partition_sorted_results (db : List Property)
    (p : PropertySearchParams) (n m : Nat) (hn : 1 ≤ n) :
    (search_properties db { p with page := (n : Int), page_size := (m : Int) }).1 ++
      (search_properties db { p with page := (n : Int) + 1, page_size := (m : Int) }).1 =
      ((sortResults p (db.filter (searchFilter p))).drop ((n - 1) * m)).take (2 * m) ∧
    (db.Nodup →
      ((search_properties db { p with page := (n : Int), page_size := (m : Int) }).1).Disjoint
        (search_properties db { p with page := (n : Int) + 1, page_size := (m : Int) }).1) := by
  have hc1 : (((n : Int) - 1) * (m : Int)).toNat = (n - 1) * m := by
    have h1 : ((n : Int) - 1) = ((n - 1 : Nat) : Int) := by omega
    rw [h1, ← Nat.cast_mul]
    exact Int.toNat_natCast _
  have hc2 : (((n : Int) + 1 - 1) * (m : Int)).toNat = n * m := by
    have h1 : ((n : Int) + 1 - 1) = ((n : Nat) : Int) := by omega
    rw [h1, ← Nat.cast_mul]
    exact Int.toNat_natCast _
  have hcm : ((m : Int)).toNat = m := Int.toNat_natCast _
  have hnm : (n - 1) * m + m = n * m := by
    obtain ⟨k, rfl⟩ : ∃ k, n = k + 1 := ⟨n - 1, by omega⟩
    simp [Nat.succ_mul]
  have hq1 : (search_properties db
      { p with page := (n : Int), page_size := (m : Int) }).1 =
      ((sortResults p (db.filter (searchFilter p))).drop ((n - 1) * m)).take m := by
    rw [search_properties_fst, searchFilter_page_eq, sortResults_page_eq]
    rw [show ({ p with page := (n : Int), page_size := (m : Int) } :
          PropertySearchParams).page = (n : Int) from rfl,
        show ({ p with page := (n : Int), page_size := (m : Int) } :
          PropertySearchParams).page_size = (m : Int) from rfl,
        hc1, hcm]
  have hq2 : (search_properties db
      { p with page := (n : Int) + 1, page_size := (m : Int) }).1 =
      ((sortResults p (db.filter (searchFilter p))).drop (n * m)).take m := by
    rw [search_properties_fst, searchFilter_page_eq, sortResults_page_eq]
    rw [show ({ p with page := (n : Int) + 1, page_size := (m : Int) } :
          PropertySearchParams).page = (n : Int) + 1 from rfl,
        show ({ p with page := (n : Int) + 1, page_size := (m : Int) } :
          PropertySearchParams).page_size = (m : Int) from rfl,
        hc2, hcm]
  constructor
  · rw [hq1, hq2]
    rw [show 2 * m = m + m from by omega, List.take_add, List.drop_drop, hnm]
  · intro hnd
    rw [hq1, hq2]
    have hfil : (db.filter (searchFilter p)).Nodup := hnd.filter _
    have hsor : (sortResults p (db.filter (searchFilter p))).Nodup :=
      ((sortResults_perm p _).nodup_iff).mpr hfil
    have hdropped : ((sortResults p (db.filter (searchFilter p))).drop
        ((n - 1) * m)).Nodup := (List.drop_sublist _ _).nodup hsor
    intro x hx1 hx2
    have hsplit := List.take_append_drop m
      ((sortResults p (db.filter (searchFilter p))).drop ((n - 1) * m))
    have hnd2 := hdropped
    rw [← hsplit] at hnd2
    rcases List.nodup_append.mp hnd2 with ⟨-, -, hdisj⟩
    have hx2' : x ∈ ((sortResults p (db.filter (searchFilter p))).drop
        ((n - 1) * m)).drop m := by
      rw [List.drop_drop, hnm]
      exact List.take_subset _ _ hx2
    exact hdisj hx1 hx2'

/-- C6 witness: three distinct listings, pages 1 and 2 of size 2 under
`price_asc` over one fixed scan order. -/
theorem c6_pages_partition_witness :
    (search_properties c6Db3
        { c6Base with page := ((1 : Nat) : Int), page_size := ((2 : Nat) : Int) }).1 ++
      (search_properties c6Db3
        { c6Base with page := ((1 : Nat) : Int) + 1, page_size := ((2 : Nat) : Int) }).1 =
      ((sortResults c6Base (c6Db3.filter (searchFilter c6Base))).drop ((1 - 1) * 2)).take
        (2 * 2) ∧
    ((search_properties c6Db3
        { c6Base with page := ((1 : Nat) : Int), page_size := ((2 : Nat) : Int) }).1).Disjoint
      (search_properties c6Db3
        { c6Base with page := ((1 : Nat) : Int) + 1, page_size := ((2 : Nat) : Int) }).1 := by
  have h := c6_pages_partition_sorted_results c6Db3 c6Base 1 2 (by decide)
  exact ⟨h.1, h.2 (by decide)⟩
